import Mathlib

/-!
Verification of the AI orchestration layer of colanode
(src/apps/server/src/lib/configuration.ts: the configuration shape and the
chat-model helpers `getChatModel`, `rerankDocuments`, `generateFinalAnswer`,
`assessUserIntent`, `evaluateAndRefine`).

The TypeScript code is shallowly embedded: plain data becomes structures,
`throw` becomes `Except.error`, and each model invocation is parameterised by
the (arbitrary) response the provider would return for the prompt inputs the
code builds.  TypeScript `number` values that are only carried around and never
computed with (temperatures, weights, scores) are modelled as `Rat`.
-/

namespace Colanode

/-- Embeds `AiProviderConfiguration` (configuration.ts lines 74-77).
The `enabled` field is optional in the interface (`enabled?: boolean`), so it
is modelled as `Option Bool`; JavaScript truthiness of a missing field is
`Option.getD false`. -/
structure AiProviderConfiguration where
  apiKey : String
  enabled : Option Bool
deriving DecidableEq

/-- Embeds `AiModelConfiguration` (configuration.ts lines 79-83).  The
`provider` field is declared as the union type `AiProvider`, but every value
stored in the real configuration object is an arbitrary environment string
cast with `as AiProvider` (e.g. line 245), so at runtime it can be any
string; it is therefore modelled as `String`. -/
structure AiModelConfiguration where
  provider : String
  modelName : String
  temperature : Rat
deriving DecidableEq

/-- The task names: `keyof typeof configuration.ai.models`
(configuration.ts lines 99-112). -/
inductive AiTask where
  | queryRewrite
  | response
  | rerank
  | summarization
  | contextEnhancer
  | noContext
  | intentRecognition
  | databaseFilter
  | reasoning
  | deepPlanner
  | deepCritic
  | deepRerank
deriving DecidableEq

/-- The `models` record of `AiConfiguration` (configuration.ts lines 99-112). -/
structure AiModelsConfiguration where
  queryRewrite : AiModelConfiguration
  response : AiModelConfiguration
  rerank : AiModelConfiguration
  summarization : AiModelConfiguration
  contextEnhancer : AiModelConfiguration
  noContext : AiModelConfiguration
  intentRecognition : AiModelConfiguration
  databaseFilter : AiModelConfiguration
  reasoning : AiModelConfiguration
  deepPlanner : AiModelConfiguration
  deepCritic : AiModelConfiguration
  deepRerank : AiModelConfiguration
deriving DecidableEq

/-- The record access `configuration.ai.models[task]` (configuration.ts
line 414). -/
def AiModelsConfiguration.get (ms : AiModelsConfiguration) : AiTask → AiModelConfiguration
  | .queryRewrite => ms.queryRewrite
  | .response => ms.response
  | .rerank => ms.rerank
  | .summarization => ms.summarization
  | .contextEnhancer => ms.contextEnhancer
  | .noContext => ms.noContext
  | .intentRecognition => ms.intentRecognition
  | .databaseFilter => ms.databaseFilter
  | .reasoning => ms.reasoning
  | .deepPlanner => ms.deepPlanner
  | .deepCritic => ms.deepCritic
  | .deepRerank => ms.deepRerank

/-- The `providers` record of `AiConfiguration` (configuration.ts lines
89-92): an object literal with exactly the keys `openai` and `google`. -/
structure AiProvidersConfiguration where
  openai : AiProviderConfiguration
  google : AiProviderConfiguration
deriving DecidableEq

/-- The dynamic property access `configuration.ai.providers[tag]`
(configuration.ts line 419).  For any key other than the two declared
properties the JavaScript access evaluates to `undefined`, modelled as
`none`. -/
def AiProvidersConfiguration.lookup (ps : AiProvidersConfiguration) (tag : String) :
    Option AiProviderConfiguration :=
  if tag = "openai" then some ps.openai
  else if tag = "google" then some ps.google
  else none

/-- Embeds the `hybridSearch` record of `RetrievalConfiguration`
(configuration.ts lines 134-140). -/
structure HybridSearchConfiguration where
  semanticSearchWeight : Rat
  keywordSearchWeight : Rat
  maxResults : Nat
deriving DecidableEq

/-- Embeds `RetrievalConfiguration` (configuration.ts lines 134-140). -/
structure RetrievalConfiguration where
  hybridSearch : HybridSearchConfiguration
deriving DecidableEq

/-- Embeds the `deepSearch` record of `AiConfiguration`
(configuration.ts lines 122-125, optional field). -/
structure DeepSearchConfiguration where
  enabled : Bool
  maxIterations : Nat
deriving DecidableEq

/-- Embeds `AiConfiguration` (configuration.ts lines 85-126), restricted to
the fields that the verified functions read (`enabled`, `providers`,
`models`, `retrieval`, `deepSearch`; the embedding delays, langfuse,
embedding and chunking settings are never read by the functions under
verification and are omitted). -/
structure AiConfiguration where
  enabled : Bool
  providers : AiProvidersConfiguration
  models : AiModelsConfiguration
  retrieval : RetrievalConfiguration
  deepSearch : Option DeepSearchConfiguration
deriving DecidableEq

/-- A JavaScript exception: `thrown` is an explicit `throw new Error(msg)`;
`typeError` is the runtime TypeError raised by a property access on
`undefined`. -/
inductive JsError where
  | thrown (message : String)
  | typeError (message : String)
deriving DecidableEq

/-- The value returned by `getChatModel`: either a `ChatOpenAI` client
(whose construction at lines 427-436 passes `temperature` only when
`reasoningModel` is false, hence `Option Rat`), or a
`ChatGoogleGenerativeAI` client (lines 438-442, always constructed with a
temperature). -/
inductive ModelHandle where
  | chatOpenAI (modelName : String) (temperature : Option Rat) (openAIApiKey : String)
  | chatGoogleGenerativeAI (modelName : String) (temperature : Rat) (apiKey : String)
deriving DecidableEq

/-- Whether the constructed client received a `temperature` parameter. -/
def ModelHandle.includesTemperature : ModelHandle → Bool
  | .chatOpenAI _ t _ => t.isSome
  | .chatGoogleGenerativeAI _ _ _ => true

/-- Embeds `getChatModel` (configuration.ts lines 410-446), step by step:
read `configuration.ai.models[task]`; throw if `!configuration.ai.enabled`;
read `configuration.ai.providers[modelConfig.provider]` — on an unknown
provider tag this is `undefined` and the following `.enabled` access raises
a TypeError; throw if the provider is not enabled; then switch on the
provider tag, where the `openai` branch omits `temperature` exactly when
`reasoningModel` is set and the `google` branch always passes it. -/
def getChatModel (ai : AiConfiguration) (task : AiTask) (reasoningModel : Bool) :
    Except JsError ModelHandle :=
  let modelConfig := ai.models.get task
  if !ai.enabled then
    .error (.thrown ("AI is disabled."))
  else
    match ai.providers.lookup modelConfig.provider with
    | none => .error (.typeError ("Cannot read properties of undefined"))
    | some providerConfig =>
      if !(providerConfig.enabled.getD false) then
        .error (.thrown (modelConfig.provider ++ " provider is disabled."))
      else
        match modelConfig.provider with
        | "openai" =>
          if reasoningModel then
            .ok (.chatOpenAI modelConfig.modelName none providerConfig.apiKey)
          else
            .ok (.chatOpenAI modelConfig.modelName (some modelConfig.temperature) providerConfig.apiKey)
        | "google" =>
          .ok (.chatGoogleGenerativeAI modelConfig.modelName modelConfig.temperature providerConfig.apiKey)
        | _ => .error (.thrown ("Unsupported AI provider: " ++ modelConfig.provider))

/-! ### Concrete configuration values

`exampleModels` mirrors the default model bindings of `configuration.ai.models`
(configuration.ts lines 243-337, the values used when no environment override
is present). -/

def exampleModels : AiModelsConfiguration where
  queryRewrite := ⟨"openai", "gpt-4o-mini", 3/10⟩
  response := ⟨"openai", "gpt-4o-mini", 3/10⟩
  rerank := ⟨"openai", "gpt-4o-mini", 1/10⟩
  summarization := ⟨"openai", "gpt-4o-mini", 2/10⟩
  contextEnhancer := ⟨"openai", "gpt-4o-mini", 2/10⟩
  noContext := ⟨"openai", "gpt-4o-mini", 5/10⟩
  intentRecognition := ⟨"openai", "gpt-4o-mini", 0⟩
  databaseFilter := ⟨"openai", "gpt-4o-mini", 0⟩
  reasoning := ⟨"openai", "gpt-4o", 3/10⟩
  deepPlanner := ⟨"openai", "o3", 3/10⟩
  deepCritic := ⟨"openai", "o3", 0⟩
  deepRerank := ⟨"google", "gemini-2.5-pro", 2/10⟩

def exampleProviders : AiProvidersConfiguration :=
  ⟨⟨"openai-key", some true⟩, ⟨"google-key", some true⟩⟩

def exampleRetrieval : RetrievalConfiguration :=
  ⟨⟨7/10, 3/10, 20⟩⟩

/-- A configuration with AI enabled and both providers enabled. -/
def exampleAi : AiConfiguration :=
  ⟨true, exampleProviders, exampleModels, exampleRetrieval, some ⟨true, 3⟩⟩

/-- `exampleAi` with the global AI flag off. -/
def exampleDisabledAi : AiConfiguration :=
  ⟨false, exampleProviders, exampleModels, exampleRetrieval, some ⟨true, 3⟩⟩

/-- `exampleAi` with the openai provider disabled. -/
def exampleProviderDisabledAi : AiConfiguration :=
  ⟨true, ⟨⟨"openai-key", some false⟩, ⟨"google-key", some true⟩⟩, exampleModels,
    exampleRetrieval, some ⟨true, 3⟩⟩

/-- `exampleAi` where the queryRewrite task is bound to an unknown provider
tag (as happens when the QUERY_REWRITE_PROVIDER environment variable holds a
value outside the declared union, which the loader casts unchecked). -/
def exampleUnknownProviderAi : AiConfiguration :=
  ⟨true, exampleProviders,
    { exampleModels with queryRewrite := ⟨"anthropic", "some-model", 3/10⟩ },
    exampleRetrieval, some ⟨true, 3⟩⟩

/-- Claim C4: when the global AI flag is off, `getChatModel` fails with the
AI-disabled error for every task and reasoning flag, and the result does not
depend on the providers record at all (the failure happens before the
provider lookup). -/
theorem assistant_c4_ai_disabled_blocks_every_task (ai : AiConfiguration)
    (h : ai.enabled = false) (task : AiTask) (reasoningModel : Bool) :
    getChatModel ai task reasoningModel = .error (.thrown ("AI is disabled.")) ∧
    ∀ ps : AiProvidersConfiguration,
      getChatModel { ai with providers := ps } task reasoningModel =
        .error (.thrown ("AI is disabled.")) := by
  constructor
  · simp [getChatModel, h]
  · intro ps
    simp [getChatModel, h]

theorem assistant_c4_witness :
    getChatModel exampleDisabledAi .queryRewrite false = .error (.thrown ("AI is disabled.")) :=
  (assistant_c4_ai_disabled_blocks_every_task exampleDisabledAi rfl .queryRewrite false).1

/-- Claim C5: when AI is globally enabled but the provider resolved for the
task has `enabled = false`, `getChatModel` fails with the provider-disabled
error and never returns a constructed model client. -/
theorem assistant_c5_provider_disabled_blocks (ai : AiConfiguration) (task : AiTask)
    (reasoningModel : Bool) (pc : AiProviderConfiguration)
    (henabled : ai.enabled = true)
    (hlookup : ai.providers.lookup (ai.models.get task).provider = some pc)
    (hdisabled : pc.enabled = some false) :
    getChatModel ai task reasoningModel =
      .error (.thrown ((ai.models.get task).provider ++ " provider is disabled.")) ∧
    ∀ handle : ModelHandle, getChatModel ai task reasoningModel ≠ .ok handle := by
  have hres : getChatModel ai task reasoningModel =
      .error (.thrown ((ai.models.get task).provider ++ " provider is disabled.")) := by
    simp [getChatModel, henabled, hlookup, hdisabled]
  exact ⟨hres, fun handle hcontra => by rw [hres] at hcontra; cases hcontra⟩

theorem assistant_c5_witness :
    getChatModel exampleProviderDisabledAi .queryRewrite false =
      .error (.thrown ("openai provider is disabled.")) :=
  (assistant_c5_provider_disabled_blocks exampleProviderDisabledAi .queryRewrite false
    ⟨"openai-key", some false⟩ rfl rfl rfl).1

/-- Claim C6 (counterexample to the original claim): for a task bound to the
google provider, passing `reasoningModel = true` still yields a client
constructed with a temperature: the google branch of `getChatModel` ignores
the reasoning flag, so the resulting handle does not omit temperature for
every provider. -/
theorem assistant_c6_counterexample :
    getChatModel exampleAi .deepRerank true =
      .ok (.chatGoogleGenerativeAI ("gemini-2.5-pro") (2/10) ("google-key")) ∧
    ModelHandle.includesTemperature
      (.chatGoogleGenerativeAI ("gemini-2.5-pro") (2/10) ("google-key")) = true := by
  constructor
  · rfl
  · rfl

/-- Claim C6 (amended): the reasoning-mode flag omits the temperature
parameter exactly on the openai branch; for tasks bound to the google
provider the flag is ignored and the handle always includes the
temperature. -/
theorem assistant_c6_reasoning_omits_temperature (ai : AiConfiguration) (task : AiTask)
    (pc : AiProviderConfiguration)
    (henabled : ai.enabled = true)
    (hlookup : ai.providers.lookup (ai.models.get task).provider = some pc)
    (hpc : pc.enabled = some true) :
    ((ai.models.get task).provider = "openai" →
      getChatModel ai task true =
        .ok (.chatOpenAI (ai.models.get task).modelName none pc.apiKey)) ∧
    ((ai.models.get task).provider = "google" → ∀ reasoningModel : Bool,
      getChatModel ai task reasoningModel =
        .ok (.chatGoogleGenerativeAI (ai.models.get task).modelName
          (ai.models.get task).temperature pc.apiKey)) := by
  constructor
  · intro hp
    rw [hp] at hlookup
    simp [getChatModel, henabled, hlookup, hpc, hp]
  · intro hp reasoningModel
    rw [hp] at hlookup
    simp [getChatModel, henabled, hlookup, hpc, hp]

theorem assistant_c6_witness :
    getChatModel exampleAi .queryRewrite true =
      .ok (.chatOpenAI ("gpt-4o-mini") none ("openai-key")) :=
  (assistant_c6_reasoning_omits_temperature exampleAi .queryRewrite
    ⟨"openai-key", some true⟩ rfl rfl rfl).1 rfl

/-- Claim C7: on a provider tag outside the known set the code never reaches
its explicit unsupported-provider branch.  At the concrete failing input the
lookup `configuration.ai.providers[tag]` yields `undefined` and the
subsequent `.enabled` access raises a TypeError, so `getChatModel` fails
with a TypeError and not with the unsupported-provider error the branch at
lines 443-445 would throw. -/
theorem assistant_c7_unknown_provider_type_error :
    getChatModel exampleUnknownProviderAi .queryRewrite false =
      .error (.typeError ("Cannot read properties of undefined")) ∧
    getChatModel exampleUnknownProviderAi .queryRewrite false ≠
      .error (.thrown ("Unsupported AI provider: anthropic")) ∧
    ∀ (ai : AiConfiguration) (task : AiTask) (reasoningModel : Bool),
      (ai.models.get task).provider ≠ "openai" →
      (ai.models.get task).provider ≠ "google" →
      getChatModel ai task reasoningModel = .error (.thrown ("AI is disabled.")) ∨
      getChatModel ai task reasoningModel = .error (.typeError ("Cannot read properties of undefined")) := by
  refine ⟨rfl, ?_, ?_⟩
  · intro h
    injection h with h1
    injection h1
  intro ai task reasoningModel h1 h2
  by_cases he : ai.enabled
  · right
    simp [getChatModel, he, AiProvidersConfiguration.lookup, h1, h2]
  · left
    simp [getChatModel, he]

theorem assistant_c7_witness :
    getChatModel exampleUnknownProviderAi .queryRewrite true =
      .error (.thrown ("AI is disabled.")) ∨
    getChatModel exampleUnknownProviderAi .queryRewrite true =
      .error (.typeError ("Cannot read properties of undefined")) :=
  (assistant_c7_unknown_provider_type_error).2.2 exampleUnknownProviderAi .queryRewrite true
    (by decide) (by decide)

/-! ### Executable string helpers

JavaScript `String.prototype.trim` / `toLowerCase` and substring search,
embedded as structural recursion over `List Char` so that concrete instances
reduce. -/

/-- Embeds JavaScript `s.toLowerCase()`. -/
def strToLower (s : String) : String :=
  ⟨s.data.map Char.toLower⟩

/-- Embeds JavaScript `s.trim()`: whitespace removed from both ends. -/
def strTrim (s : String) : String :=
  ⟨((s.data.dropWhile Char.isWhitespace).reverse.dropWhile Char.isWhitespace).reverse⟩

/-- Whether the first list has the second as a leading segment. -/
def startsWithL : List Char → List Char → Bool
  | _, [] => true
  | [], _ :: _ => false
  | a :: as, b :: bs => a = b && startsWithL as bs

/-- Whether the pattern occurs inside the list. -/
def containsSub : List Char → List Char → Bool
  | [], pat => pat.isEmpty
  | c :: rest, pat => startsWithL (c :: rest) pat || containsSub rest pat

/-- Whether `pat` occurs as a substring of `s`. -/
def containsSubstring (s pat : String) : Bool :=
  containsSub s.data pat.data

/-! ### The retrieval pipeline data model -/

/-- Modelled from the spec: the `RewrittenQuery` interface is imported from
`@/types/llm`, which is not part of the sources; §3 gives its shape
`{semanticQuery, keywordQuery}`, and the code reads `.semanticQuery`
(configuration.ts line 493). -/
structure RewrittenQuery where
  semanticQuery : String
  keywordQuery : String
deriving DecidableEq

/-- A langchain `Document` as `rerankDocuments` consumes it
(configuration.ts lines 480-484): its page content plus the `type` and `id`
metadata entries. -/
structure ContextDocument where
  pageContent : String
  metadataType : String
  metadataId : String
deriving DecidableEq

/-- Modelled from the spec: `AssistantChainState` is imported from
`@/types/assistant`, which is not part of the sources; §3 (PipelineRun)
gives the mode, and the fields read by `rerankDocuments` are `mode`,
`rewrittenQuery` and `contextDocuments` (configuration.ts lines 474-493). -/
structure AssistantChainState where
  mode : String
  rewrittenQuery : RewrittenQuery
  contextDocuments : List ContextDocument
deriving DecidableEq

/-- An entry of the reranker result, from the declared return type of
`rerankDocuments` (configuration.ts lines 471-473):
`{index: number; score: number; type: string; sourceId: string}`. -/
structure RankingEntry where
  index : Int
  score : Rat
  type : String
  sourceId : String
deriving DecidableEq

/-- The structured output of the rerank model: an object with a `rankings`
array (configuration.ts line 498 reads `result.rankings`). -/
structure RerankedDocuments where
  rankings : List RankingEntry
deriving DecidableEq

/-- The two prompt variables handed to the rerank model invocation
(configuration.ts line 497): `{ query, context: formattedContext }`. -/
structure RerankPromptInput where
  query : String
  context : String
deriving DecidableEq

/-- One numbered line of the rerank context (configuration.ts lines
487-490, the template literal including its trailing newline). -/
def rerankDocumentLine (idx : Nat) (doc : ContextDocument) : String :=
  toString idx ++ ". Type: " ++ doc.metadataType ++ ", Content: " ++
    doc.pageContent ++ ", ID: " ++ doc.metadataId ++ "\n"

/-- The `formattedContext` string (configuration.ts lines 486-491): the
numbered document lines joined with a newline. -/
def rerankFormattedContext (docs : List ContextDocument) : String :=
  String.intercalate ("\n") (docs.enum.map (fun p => rerankDocumentLine p.1 p.2))

/-- Everything `rerankDocuments` passes to the ranking model: the semantic
form of the rewritten query and the formatted candidate listing
(configuration.ts lines 493-497). -/
def rerankPromptInput (state : AssistantChainState) : RerankPromptInput :=
  ⟨state.rewrittenQuery.semanticQuery, rerankFormattedContext state.contextDocuments⟩

/-- The task binding picked by `rerankDocuments` (configuration.ts
line 474). -/
def rerankTask (state : AssistantChainState) : AiTask :=
  if state.mode = "deep_search" then .deepRerank else .rerank

/-- Embeds `rerankDocuments` (configuration.ts lines 469-499).  The model
invocation is abstracted as `modelOutput`, a function from the prompt
variables the code builds to whatever `RerankedDocuments` value the provider
returns; the code returns `result.rankings` as is. -/
def rerankDocuments (ai : AiConfiguration) (state : AssistantChainState)
    (modelOutput : RerankPromptInput → RerankedDocuments) :
    Except JsError (List RankingEntry) :=
  match getChatModel ai (rerankTask state) (decide (state.mode = "deep_search")) with
  | .error e => .error e
  | .ok _ => .ok (modelOutput (rerankPromptInput state)).rankings

/-- The prompt arguments of `generateFinalAnswer` (configuration.ts lines
501-509). -/
structure AnswerPromptArgs where
  currentTimestamp : String
  workspaceName : String
  userName : String
  userEmail : String
  formattedChatHistory : String
  formattedMessages : String
  formattedDocuments : String
  question : String
deriving DecidableEq

/-- A citation of the final answer, from the declared return type of
`generateFinalAnswer` (configuration.ts line 512). -/
structure Citation where
  sourceId : String
  quote : String
deriving DecidableEq

/-- The structured output of the answer model (configuration.ts lines
510-513): an answer plus its citations. -/
structure CitedAnswer where
  answer : String
  citations : List Citation
deriving DecidableEq

/-- Embeds `generateFinalAnswer` (configuration.ts lines 501-517): resolve
the `response` model and return the model output verbatim. -/
def generateFinalAnswer (ai : AiConfiguration) (promptArgs : AnswerPromptArgs)
    (modelOutput : AnswerPromptArgs → CitedAnswer) : Except JsError CitedAnswer :=
  match getChatModel ai .response false with
  | .error e => .error e
  | .ok _ => .ok (modelOutput promptArgs)

/-- The two intent classes returned by `assessUserIntent`
(configuration.ts line 534). -/
inductive UserIntent where
  | retrieve
  | no_context
deriving DecidableEq

/-- Embeds `assessUserIntent` (configuration.ts lines 531-544): resolve the
`intentRecognition` model, then map the free-text model response through
`result.trim().toLowerCase() === the no_context sentinel`. -/
def assessUserIntent (ai : AiConfiguration) (modelOutput : String) :
    Except JsError UserIntent :=
  match getChatModel ai .intentRecognition false with
  | .error e => .error e
  | .ok _ =>
    .ok (if strToLower (strTrim modelOutput) = "no_context" then .no_context else .retrieve)

/-- Modelled from the spec: the `EvaluateAndRefineResult` interface is
imported from `@/types/llm`, which is not part of the sources; §3 gives its
shape `{sufficient, refinedQuery?, identifiedGaps}`. -/
structure EvaluateAndRefineResult where
  sufficient : Bool
  refinedQuery : Option RewrittenQuery
  identifiedGaps : List String

/-- Embeds `evaluateAndRefine` (configuration.ts lines 584-593): resolve the
`deepPlanner` model in reasoning mode and return the structured model output
verbatim. -/
def evaluateAndRefine (ai : AiConfiguration) (modelOutput : EvaluateAndRefineResult) :
    Except JsError EvaluateAndRefineResult :=
  match getChatModel ai .deepPlanner true with
  | .error e => .error e
  | .ok _ => .ok modelOutput

/-- Modelled from the spec: the Deep-Search Controller state machine itself
(§4.6) is not part of the sources — only its building block
`evaluateAndRefine` and the `deepSearch` configuration are.  One step of the
loop body: after a retrieval pass numbered `passes`, the controller
evaluates the planner response for that pass; it stops when the response
says `sufficient`, when the pass budget is exhausted, or when a refinement
is missing, and otherwise adopts the refined query and retrieves again.
`fuel` is the number of additional retrieval passes the `maxIterations`
budget still allows, so the recursion is structural and the controller is a
total function: it terminates for every response sequence. -/
def deepSearchGo (respond : Nat → EvaluateAndRefineResult) :
    RewrittenQuery → Nat → Nat → Nat
  | _, passes, 0 => passes
  | _, passes, fuel + 1 =>
    let r := respond passes
    if r.sufficient then passes
    else
      match r.refinedQuery with
      | none => passes
      | some refined => deepSearchGo respond refined (passes + 1) fuel

/-- Modelled from the spec: the number of retrieval passes the Deep-Search
Controller performs (§4.6).  The run starts in `RETRIEVE`, so one pass
always happens, and at most `maxIterations - 1` further passes can follow. -/
def deepSearchPasses (maxIterations : Nat) (firstQuery : RewrittenQuery)
    (respond : Nat → EvaluateAndRefineResult) : Nat :=
  deepSearchGo respond firstQuery 1 (maxIterations - 1)

/-- The loop body can add at most `fuel` further passes. -/
theorem deepSearchGo_le (respond : Nat → EvaluateAndRefineResult) :
    ∀ (fuel passes : Nat) (q : RewrittenQuery),
      deepSearchGo respond q passes fuel ≤ passes + fuel := by
  intro fuel
  induction fuel with
  | zero => intro passes q; simp [deepSearchGo]
  | succ n ih =>
    intro passes q
    simp only [deepSearchGo]
    cases hs : (respond passes).sufficient with
    | true => simp
    | false =>
      simp only [Bool.false_eq_true, if_false]
      cases hr : (respond passes).refinedQuery with
      | none => simp
      | some refined =>
        show deepSearchGo respond refined (passes + 1) n ≤ passes + (n + 1)
        have h2 := ih (passes + 1) refined
        omega

/-! ### The environment-driven configuration loader -/

/-- The process environment, as `process.env` presents it: a partial map
from variable names to strings. -/
def EnvMap : Type := String → Option String

/-- Embeds `getOptionalEnv` (configuration.ts lines 151-153). -/
def getOptionalEnv (env : EnvMap) (name : String) : Option String :=
  env name

/-- Embeds the `enabled` field of `configuration.ai` (configuration.ts
line 219): `getOptionalEnv('AI_ENABLED') === 'true'`, a case-sensitive
strict string comparison. -/
def aiEnabledOfEnv (env : EnvMap) : Bool :=
  decide (getOptionalEnv env ("AI_ENABLED") = some ("true"))

/-! ### Concrete pipeline values used by the witnesses and counterexamples -/

/-- `exampleAi` with `maxResults` set to 1. -/
def exampleSmallAi : AiConfiguration :=
  ⟨true, exampleProviders, exampleModels, ⟨⟨7/10, 3/10, 1⟩⟩, some ⟨true, 3⟩⟩

/-- A retrieval-mode chain state holding one candidate document. -/
def exampleState : AssistantChainState :=
  ⟨"retrieve", ⟨"refund policy", "KEYWORDFORM"⟩,
    [⟨"refund text", "document", "src-1"⟩]⟩

/-- `exampleState` with a different keyword form of the query. -/
def exampleStateOtherKeywords : AssistantChainState :=
  ⟨"retrieve", ⟨"refund policy", "OTHERWORDS"⟩,
    [⟨"refund text", "document", "src-1"⟩]⟩

/-- A rerank model response whose two entries both carry index 5: out of
range for a single-document candidate list, duplicated, and one entry more
than a `maxResults` of 1 allows. -/
def badRerankResponse : RerankedDocuments :=
  ⟨[⟨5, 9/10, "document", "zzz"⟩, ⟨5, 8/10, "document", "zzz"⟩]⟩

/-- A well-formed rerank model response for a single-document list. -/
def goodRerankResponse : RerankedDocuments :=
  ⟨[⟨0, 1, "document", "src-1"⟩]⟩

/-- Answer-generation arguments that supply no documents at all. -/
def examplePromptArgs : AnswerPromptArgs :=
  ⟨"2026-10-11", "acme", "alex", "alex@acme.test", "", "", "", "what is our refund policy?"⟩

/-- An answer model response citing a source id that no supplied document
has. -/
def badCitedAnswer : CitedAnswer :=
  ⟨"the policy is thirty days", [⟨"zzz", "somewhere"⟩]⟩

/-- A planner response sequence that always claims the evidence is
insufficient and always offers a refinement. -/
def adversarialRespond : Nat → EvaluateAndRefineResult :=
  fun _ => ⟨false, some ⟨"refined", "refined keywords"⟩, ["gap"]⟩

/-- A planner response with neither sufficiency nor a refinement. -/
def malformedRespond : Nat → EvaluateAndRefineResult :=
  fun _ => ⟨false, none, ["gap"]⟩

/-- An environment that sets AI_ENABLED to the wrong-case string TRUE. -/
def exampleEnvUpper : EnvMap :=
  fun name => if name = "AI_ENABLED" then some ("TRUE") else none

/-- A well-formed answer model response with no citations. -/
def exampleCitedAnswer : CitedAnswer :=
  ⟨"the policy is thirty days", []⟩

/-- Claim C1 (counterexample to the original claim): `rerankDocuments` does
not discard entries whose index is out of range, does not deduplicate, and
does not truncate to `maxResults`.  With one candidate document and
`maxResults = 1`, a model response carrying two entries of index 5 is
returned exactly as the model produced it. -/
theorem assistant_c1_counterexample :
    rerankDocuments exampleSmallAi exampleState (fun _ => badRerankResponse) =
      .ok [⟨5, 9/10, "document", "zzz"⟩, ⟨5, 8/10, "document", "zzz"⟩] ∧
    exampleSmallAi.retrieval.hybridSearch.maxResults = 1 ∧
    exampleState.contextDocuments.length = 1 := by
  exact ⟨rfl, rfl, rfl⟩

/-- Claim C1 (amended): `rerankDocuments` returns the model's proposed
rankings unchanged, so index validity within `[0, candidates.length)`, index
uniqueness and the `maxResults` length bound hold for the returned sequence
exactly when the model's response already satisfies them; no entry is
discarded and no truncation is applied. -/
theorem assistant_c1_rerank_passthrough (ai : AiConfiguration)
    (state : AssistantChainState) (modelOutput : RerankPromptInput → RerankedDocuments)
    (rankings : List RankingEntry)
    (hok : rerankDocuments ai state modelOutput = .ok rankings) :
    rankings = (modelOutput (rerankPromptInput state)).rankings ∧
    ((∀ e ∈ (modelOutput (rerankPromptInput state)).rankings,
        0 ≤ e.index ∧ e.index < state.contextDocuments.length) →
      ∀ e ∈ rankings, 0 ≤ e.index ∧ e.index < state.contextDocuments.length) ∧
    ((modelOutput (rerankPromptInput state)).rankings.length ≤
        ai.retrieval.hybridSearch.maxResults →
      rankings.length ≤ ai.retrieval.hybridSearch.maxResults) := by
  unfold rerankDocuments at hok
  cases hg : getChatModel ai (rerankTask state) (decide (state.mode = "deep_search")) with
  | error e =>
    rw [hg] at hok
    exact Except.noConfusion hok
  | ok m =>
    rw [hg] at hok
    injection hok with h
    subst h
    exact ⟨rfl, fun hv => hv, fun hl => hl⟩

theorem assistant_c1_witness :
    ([(⟨0, 1, "document", "src-1"⟩ : RankingEntry)]) =
      ((fun _ => goodRerankResponse) (rerankPromptInput exampleState)).rankings :=
  (assistant_c1_rerank_passthrough exampleAi exampleState (fun _ => goodRerankResponse)
    [⟨0, 1, "document", "src-1"⟩] rfl).1

/-- Claim C2 (counterexample to the original claim): `generateFinalAnswer`
does not drop citations whose source id is absent from the supplied
documents.  With an empty `formattedDocuments` string — no supplied
document, hence an empty source-id set — a model response citing source id
zzz is returned with that citation intact. -/
theorem assistant_c2_counterexample :
    generateFinalAnswer exampleAi examplePromptArgs (fun _ => badCitedAnswer) =
      .ok ⟨"the policy is thirty days", [⟨"zzz", "somewhere"⟩]⟩ ∧
    examplePromptArgs.formattedDocuments = "" := by
  exact ⟨rfl, rfl⟩

/-- Claim C2 (amended): `generateFinalAnswer` returns the model's
`CitedAnswer` unchanged — the supplied documents reach it only as a
pre-formatted string, and no citation filtering against them is
performed. -/
theorem assistant_c2_answer_passthrough (ai : AiConfiguration)
    (promptArgs : AnswerPromptArgs) (modelOutput : AnswerPromptArgs → CitedAnswer)
    (result : CitedAnswer)
    (hok : generateFinalAnswer ai promptArgs modelOutput = .ok result) :
    result = modelOutput promptArgs := by
  unfold generateFinalAnswer at hok
  cases hg : getChatModel ai .response false with
  | error e =>
    rw [hg] at hok
    exact Except.noConfusion hok
  | ok m =>
    rw [hg] at hok
    injection hok with h
    exact h.symm

theorem assistant_c2_witness :
    exampleCitedAnswer = (fun _ => exampleCitedAnswer) examplePromptArgs :=
  assistant_c2_answer_passthrough exampleAi examplePromptArgs
    (fun _ => exampleCitedAnswer) exampleCitedAnswer rfl

/-- Claim C3: for every positive iteration budget and every planner response
sequence — including one that always reports the evidence insufficient — the
Deep-Search Controller performs at most `maxIterations` retrieval passes
(and terminates, being a total function), and a response with
`sufficient = false` and no refinement forces termination after the current
pass. -/
theorem assistant_c3_deep_search_bounded (maxIterations : Nat)
    (firstQuery : RewrittenQuery) (respond : Nat → EvaluateAndRefineResult)
    (h : 1 ≤ maxIterations) :
    deepSearchPasses maxIterations firstQuery respond ≤ maxIterations ∧
    ((respond 1).refinedQuery = none →
      deepSearchPasses maxIterations firstQuery respond = 1) := by
  constructor
  · have hb := deepSearchGo_le respond (maxIterations - 1) 1 firstQuery
    unfold deepSearchPasses
    omega
  · intro hr
    unfold deepSearchPasses
    cases hf : maxIterations - 1 with
    | zero => simp [deepSearchGo]
    | succ n =>
      simp only [deepSearchGo]
      simp [hr]

theorem assistant_c3_witness :
    deepSearchPasses 3 ⟨"q", "kw"⟩ adversarialRespond ≤ 3 ∧
    deepSearchPasses 3 ⟨"q", "kw"⟩ malformedRespond = 1 :=
  ⟨(assistant_c3_deep_search_bounded 3 ⟨"q", "kw"⟩ adversarialRespond (by decide)).1,
    (assistant_c3_deep_search_bounded 3 ⟨"q", "kw"⟩ malformedRespond (by decide)).2 rfl⟩

/-- Claim C8: when `assessUserIntent` returns an intent, that intent is
`no_context` exactly when the trimmed, lower-cased model response equals the
sentinel string, and every other response classifies as `retrieve`. -/
theorem assistant_c8_intent_normalization (ai : AiConfiguration)
    (modelOutput : String) (intent : UserIntent)
    (hok : assessUserIntent ai modelOutput = .ok intent) :
    (intent = .no_context ↔ strToLower (strTrim modelOutput) = "no_context") ∧
    (strToLower (strTrim modelOutput) ≠ "no_context" → intent = .retrieve) := by
  unfold assessUserIntent at hok
  cases hg : getChatModel ai .intentRecognition false with
  | error e =>
    rw [hg] at hok
    exact Except.noConfusion hok
  | ok m =>
    rw [hg] at hok
    injection hok with h
    subst h
    by_cases hc : strToLower (strTrim modelOutput) = "no_context"
    · simp [hc]
    · simp [hc]

theorem assistant_c8_witness :
    ((UserIntent.no_context = .no_context) ↔
      strToLower (strTrim ("  NO_CONTEXT  ")) = "no_context") ∧
    (strToLower (strTrim ("  NO_CONTEXT  ")) ≠ "no_context" →
      UserIntent.no_context = .retrieve) :=
  assistant_c8_intent_normalization exampleAi ("  NO_CONTEXT  ") .no_context rfl

/-- Claim C9 (counterexample to the original claim): the prompt variables
`rerankDocuments` passes to the ranking model hold only the semantic query
and the numbered candidate listing.  At a concrete state the full prompt
input is displayed; it contains neither the keyword form of the query nor
the decimal renderings of the configured hybrid weights, and it is unchanged
when the keyword form changes. -/
theorem assistant_c9_counterexample :
    rerankPromptInput exampleState =
      ⟨"refund policy", "0. Type: document, Content: refund text, ID: src-1\n"⟩ ∧
    exampleState.rewrittenQuery.keywordQuery = "KEYWORDFORM" ∧
    containsSubstring ((rerankPromptInput exampleState).query ++
      (rerankPromptInput exampleState).context) ("KEYWORDFORM") = false ∧
    containsSubstring ((rerankPromptInput exampleState).query ++
      (rerankPromptInput exampleState).context) ("0.7") = false ∧
    containsSubstring ((rerankPromptInput exampleState).query ++
      (rerankPromptInput exampleState).context) ("0.3") = false ∧
    exampleAi.retrieval.hybridSearch.semanticSearchWeight = 7/10 ∧
    exampleAi.retrieval.hybridSearch.keywordSearchWeight = 3/10 ∧
    rerankPromptInput exampleState = rerankPromptInput exampleStateOtherKeywords := by
  refine ⟨rfl, rfl, by decide, by decide, by decide, rfl, rfl, rfl⟩

/-- Claim C9 (amended): the prompt context passed to the ranking model
consists of the semantic query and the numbered candidate listing (type,
content, source id) and of nothing else: it depends only on the state's
semantic query and candidate documents, so neither the hybrid-search weights
nor the keyword query form are communicated to the reranker. -/
theorem assistant_c9_prompt_content (s t : AssistantChainState)
    (hq : s.rewrittenQuery.semanticQuery = t.rewrittenQuery.semanticQuery)
    (hd : s.contextDocuments = t.contextDocuments) :
    rerankPromptInput s = rerankPromptInput t ∧
    (rerankPromptInput s).query = s.rewrittenQuery.semanticQuery ∧
    (rerankPromptInput s).context = rerankFormattedContext s.contextDocuments := by
  refine ⟨?_, rfl, rfl⟩
  unfold rerankPromptInput
  rw [hq, hd]

theorem assistant_c9_witness :
    rerankPromptInput exampleState = rerankPromptInput exampleStateOtherKeywords ∧
    (rerankPromptInput exampleState).query =
      exampleState.rewrittenQuery.semanticQuery ∧
    (rerankPromptInput exampleState).context =
      rerankFormattedContext exampleState.contextDocuments :=
  assistant_c9_prompt_content exampleState exampleStateOtherKeywords rfl rfl

/-- Claim C10: the loaded `ai.enabled` flag is true exactly when the
AI_ENABLED environment variable holds the exact string true (case
sensitive); under any other value — unset, upper case, or the digit 1 — the
flag is false and `getChatModel` fails with the AI-disabled error for every
task, whatever the rest of the configuration holds. -/
theorem assistant_c10_ai_enabled_strict (env : EnvMap) :
    (aiEnabledOfEnv env = true ↔ env ("AI_ENABLED") = some ("true")) ∧
    (env ("AI_ENABLED") ≠ some ("true") →
      ∀ (ps : AiProvidersConfiguration) (ms : AiModelsConfiguration)
        (rc : RetrievalConfiguration) (ds : Option DeepSearchConfiguration)
        (task : AiTask) (reasoningModel : Bool),
        getChatModel ⟨aiEnabledOfEnv env, ps, ms, rc, ds⟩ task reasoningModel =
          .error (.thrown ("AI is disabled."))) := by
  constructor
  · simp [aiEnabledOfEnv, getOptionalEnv]
  · intro h ps ms rc ds task reasoningModel
    have he : aiEnabledOfEnv env = false := by
      simp [aiEnabledOfEnv, getOptionalEnv, h]
    simp [getChatModel, he]

theorem assistant_c10_witness :
    getChatModel
      ⟨aiEnabledOfEnv exampleEnvUpper, exampleProviders, exampleModels,
        exampleRetrieval, some ⟨true, 3⟩⟩ .response false =
      .error (.thrown ("AI is disabled.")) :=
  (assistant_c10_ai_enabled_strict exampleEnvUpper).2 (by decide) exampleProviders
    exampleModels exampleRetrieval (some ⟨true, 3⟩) .response false

end Colanode
